import Mathlib

/-
  Shallow embedding of the import pipeline of the AIChatHistory backend
  (backend/app/api/import_jobs.py, backend/app/providers/base.py,
  backend/app/models/models.py).

  Machine-independent details: UUIDs are modelled as Nat identifiers,
  datetimes as Nat, JSON blobs as Option String, the requested_range
  mapping as a list of key/value string pairs.  External collaborators
  (credential vault, provider registry, provider adapter, database
  flush/commit outcomes) are parameters of the run, bundled in Env.
-/

deriving instance DecidableEq for Except

namespace ImportPipeline

/-- Normalized message emitted by a provider adapter
(ProviderMessage in providers/base.py). -/
structure ProviderMessage where
  provider_message_id : Option String
  role : String
  content : String
  created_at : Option Nat
  sequence_index : Int
  raw_metadata : Option String
deriving DecidableEq

/-- Normalized artifact emitted by a provider adapter
(ProviderArtifact in providers/base.py). -/
structure ProviderArtifact where
  provider_artifact_id : Option String
  artifact_type : String
  filename : Option String
  mime_type : Option String
  download_status : String
  download_error : Option String
  message_sequence_index : Option Int
  raw_metadata : Option String
deriving DecidableEq

/-- Lightweight conversation summary returned by list_conversations
(ProviderConversationSummary in providers/base.py). -/
structure ProviderConversationSummary where
  provider_conversation_id : String
  title : Option String
  started_at : Option Nat
  ended_at : Option Nat
  message_count : Option Nat
  raw_metadata : Option String
deriving DecidableEq

/-- Full conversation detail returned by fetch_conversation
(ProviderConversationDetail in providers/base.py). -/
structure ProviderConversationDetail where
  provider_conversation_id : String
  title : Option String
  started_at : Option Nat
  ended_at : Option Nat
  messages : List ProviderMessage
  artifacts : List ProviderArtifact
  raw_metadata : Option String
deriving DecidableEq

/-- Row of the providers table (models/models.py Provider);
only the columns the pipeline reads. -/
structure ProviderRow where
  id : Nat
  name : String
deriving DecidableEq

/-- Row of the api_keys table (models/models.py APIKey). -/
structure APIKeyRow where
  id : Nat
  provider_id : Nat
  key_encrypted : String
  is_active : Bool
  last_used_at : Option Nat
deriving DecidableEq

/-- Row of the conversations table (models/models.py Conversation). -/
structure ConversationRow where
  id : Nat
  provider_id : Nat
  provider_conversation_id : Option String
  title : Option String
  started_at : Option Nat
  ended_at : Option Nat
  origin : String
  import_job_id : Option Nat
  raw_metadata : Option String
deriving DecidableEq

/-- Row of the messages table (models/models.py Message). -/
structure MessageRow where
  id : Nat
  conversation_id : Nat
  provider_message_id : Option String
  role : String
  content : String
  created_at : Option Nat
  sequence_index : Int
  raw_metadata : Option String
deriving DecidableEq

/-- Row of the artifacts table (models/models.py Artifact). -/
structure ArtifactRow where
  id : Nat
  conversation_id : Nat
  message_id : Option Nat
  artifact_type : String
  provider_artifact_id : Option String
  filename : Option String
  mime_type : Option String
  download_status : String
  download_error : Option String
  raw_metadata : Option String
deriving DecidableEq

/-- Row of the import_jobs table (models/models.py ImportJob). -/
structure ImportJobRow where
  id : Nat
  provider_id : Nat
  api_key_id : Nat
  started_at : Nat
  finished_at : Option Nat
  status : String
  requested_range : Option (List (String × String))
  summary : Option String
  error_details : Option String
  conversations_imported : Nat
  messages_imported : Nat
  artifacts_imported : Nat
deriving DecidableEq

/-- The persisted relational state the pipeline touches.
next_id is the id allocator standing in for uuid4 defaults. -/
structure DB where
  jobs : List ImportJobRow
  api_keys : List APIKeyRow
  providers : List ProviderRow
  conversations : List ConversationRow
  messages : List MessageRow
  artifacts : List ArtifactRow
  next_id : Nat
deriving DecidableEq

/-- A provider adapter, reduced to the two operations run_import_job
calls (ConversationProviderAdapter in providers/base.py); an
Except.error value models the call raising, carrying str(e). -/
structure Adapter where
  list_conversations : String → List (String × String) →
    Except String (List ProviderConversationSummary)
  fetch_conversation : String → String →
    Except String ProviderConversationDetail

/-- Where the database raises while persisting one conversation:
at db.flush() (before any counter is incremented) or at db.commit()
(after all three counters were incremented).  Carries str(e). -/
inductive PersistFail where
  | atFlush (msg : String)
  | atCommit (msg : String)
deriving DecidableEq

/-- The exception message carried by a persistence failure. -/
def PersistFail.msg : PersistFail → String
  | PersistFail.atFlush m => m
  | PersistFail.atCommit m => m

/-- External collaborators of one run: the credential vault decrypt,
the provider registry lookup (raising ValueError for an unknown name),
the database outcome for persisting each staged conversation, and the
clock (datetime.now(), collapsed to one instant). -/
structure Env where
  decrypt_api_key : String → Except String String
  get_adapter : String → Except String Adapter
  persist_outcome : ProviderConversationDetail → Option PersistFail
  now : Nat

/-- Accumulator of the per-summary loop in run_import_job:
the session state plus conversations_count, messages_count,
artifacts_count and the errors list. -/
structure LoopState where
  db : DB
  conversations_count : Nat
  messages_count : Nat
  artifacts_count : Nat
  errors : List String
deriving DecidableEq

/-- db.query(ImportJob).filter(ImportJob.id == job_id).first() -/
def getJob (db : DB) (job_id : Nat) : Option ImportJobRow :=
  db.jobs.find? fun j => j.id == job_id

/-- db.query(APIKey).filter(APIKey.id == key_id).first() -/
def getApiKey (db : DB) (key_id : Nat) : Option APIKeyRow :=
  db.api_keys.find? fun k => k.id == key_id

/-- db.query(Provider).filter(Provider.id == provider_id).first() -/
def getProvider (db : DB) (provider_id : Nat) : Option ProviderRow :=
  db.providers.find? fun p => p.id == provider_id

/-- Replace the row with the same id (the ORM object mutation being
committed back to its table). -/
def updateById {α : Type} (idOf : α → Nat) (xs : List α) (y : α) : List α :=
  xs.map fun x => if idOf x == idOf y then y else x

/-- Write back a mutated ImportJob row. -/
def setJob (db : DB) (j : ImportJobRow) : DB :=
  { db with jobs := updateById (fun x => x.id) db.jobs j }

/-- Write back a mutated APIKey row. -/
def setApiKey (db : DB) (k : APIKeyRow) : DB :=
  { db with api_keys := updateById (fun x => x.id) db.api_keys k }

/-- The fatal-error epilogue of run_import_job: status failed,
error_details, finished_at, commit. -/
def failJob (db : DB) (job : ImportJobRow) (msg : String) (now : Nat) : DB :=
  setJob db { job with
    status := "failed"
    error_details := some msg
    finished_at := some now }

/-- The dedup query: does a Conversation row with this
(provider_id, provider_conversation_id) pair exist? -/
def hasConversation (db : DB) (provider_id : Nat) (pcid : String) : Bool :=
  db.conversations.any fun c =>
    c.provider_id == provider_id && c.provider_conversation_id == some pcid

/-- The f-string built in the per-item except handler. -/
def itemErrorMsg (sid e : String) : String :=
  "Error importing conversation " ++ sid ++ ": " ++ e

/-- Message rows staged for one conversation; note the Adapter-provided
sequence_index is stored verbatim. -/
def insertedMessages (cid base : Nat) (msgs : List ProviderMessage) :
    List MessageRow :=
  msgs.enum.map fun p =>
    { id := base + p.1
      conversation_id := cid
      provider_message_id := p.2.provider_message_id
      role := p.2.role
      content := p.2.content
      created_at := p.2.created_at
      sequence_index := p.2.sequence_index
      raw_metadata := p.2.raw_metadata }

/-- Artifact rows staged for one conversation.  run_import_job builds
each Artifact without a message_id argument, so the column takes its
null default: the adapter-side message_sequence_index is never read. -/
def insertedArtifacts (cid base : Nat) (arts : List ProviderArtifact) :
    List ArtifactRow :=
  arts.enum.map fun p =>
    { id := base + p.1
      conversation_id := cid
      message_id := none
      artifact_type := p.2.artifact_type
      provider_artifact_id := p.2.provider_artifact_id
      filename := p.2.filename
      mime_type := p.2.mime_type
      download_status := p.2.download_status
      download_error := p.2.download_error
      raw_metadata := p.2.raw_metadata }

/-- The successful commit of one staged conversation: the Conversation
row (origin defaulting to api, linked to the job), its Message rows and
its Artifact rows become durable in one unit. -/
def commitConversation (db : DB) (provider_id job_id : Nat)
    (d : ProviderConversationDetail) : DB :=
  let cid := db.next_id
  let conv : ConversationRow :=
    { id := cid
      provider_id := provider_id
      provider_conversation_id := some d.provider_conversation_id
      title := d.title
      started_at := d.started_at
      ended_at := d.ended_at
      origin := "api"
      import_job_id := some job_id
      raw_metadata := d.raw_metadata }
  { db with
    conversations := db.conversations ++ [conv]
    messages := db.messages ++ insertedMessages cid (cid + 1) d.messages
    artifacts := db.artifacts ++
      insertedArtifacts cid (cid + 1 + d.messages.length) d.artifacts
    next_id := cid + 1 + d.messages.length + d.artifacts.length }

/-- One iteration of the per-summary loop, inner try/except included:
fetch, dedup, stage + flush + commit; any raise is caught, appended to
errors, the transaction rolled back, and the loop continues.  A raise
at commit time happens after the three counters were already
incremented, so those increments survive the rollback. -/
def processItem (env : Env) (adapter : Adapter) (api_key : String)
    (provider_id job_id : Nat) (st : LoopState)
    (s : ProviderConversationSummary) : LoopState :=
  match adapter.fetch_conversation api_key s.provider_conversation_id with
  | Except.error e =>
      { st with errors :=
          st.errors ++ [itemErrorMsg s.provider_conversation_id e] }
  | Except.ok d =>
      if hasConversation st.db provider_id d.provider_conversation_id then
        st
      else
        match env.persist_outcome d with
        | some (PersistFail.atFlush m) =>
            { st with errors :=
                st.errors ++ [itemErrorMsg s.provider_conversation_id m] }
        | some (PersistFail.atCommit m) =>
            { st with
              conversations_count := st.conversations_count + 1
              messages_count := st.messages_count + d.messages.length
              artifacts_count := st.artifacts_count + d.artifacts.length
              errors :=
                st.errors ++ [itemErrorMsg s.provider_conversation_id m] }
        | none =>
            { st with
              db := commitConversation st.db provider_id job_id d
              conversations_count := st.conversations_count + 1
              messages_count := st.messages_count + d.messages.length
              artifacts_count := st.artifacts_count + d.artifacts.length }

/-- The whole per-summary loop, starting from zero counters and an
empty errors list. -/
def runLoop (env : Env) (adapter : Adapter) (api_key : String)
    (provider_id job_id : Nat) (db : DB)
    (summaries : List ProviderConversationSummary) : LoopState :=
  summaries.foldl (processItem env adapter api_key provider_id job_id)
    { db := db
      conversations_count := 0
      messages_count := 0
      artifacts_count := 0
      errors := [] }

/-- The human-readable run summary string. -/
def importSummaryString (cc mc ac : Nat) : String :=
  "Imported " ++ toString cc ++ " conversations, " ++ toString mc ++
    " messages, " ++ toString ac ++ " artifacts"

/-- The normal-completion epilogue: status from the errors list,
counters, summary string, error_details truncated to the first 10
entries, finished_at. -/
def finalizeJob (job : ImportJobRow) (st : LoopState) (now : Nat) :
    ImportJobRow :=
  { job with
    status := if st.errors.isEmpty then "success" else "partial"
    conversations_imported := st.conversations_count
    messages_imported := st.messages_count
    artifacts_imported := st.artifacts_count
    summary := some (importSummaryString st.conversations_count
      st.messages_count st.artifacts_count)
    error_details := if st.errors.isEmpty then job.error_details
      else some (String.intercalate "\n" (st.errors.take 10))
    finished_at := some now }

/-- run_import_job in api/import_jobs.py.  The outer try has only a
finally clause (db.close()), so an exception thrown by
decrypt_api_key propagates out with no job update: that case returns
the database unchanged. -/
def run_import_job (env : Env) (job_id : Nat) (db : DB) : DB :=
  match getJob db job_id with
  | none => db
  | some job =>
    match getApiKey db job.api_key_id with
    | none => failJob db job "API key not found" env.now
    | some api_key_record =>
      match env.decrypt_api_key api_key_record.key_encrypted with
      | Except.error _ => db
      | Except.ok api_key =>
        match getProvider db job.provider_id with
        | none => failJob db job "Provider not found" env.now
        | some provider =>
          match env.get_adapter provider.name with
          | Except.error e => failJob db job e env.now
          | Except.ok adapter =>
            match adapter.list_conversations api_key
                (job.requested_range.getD []) with
            | Except.error e => failJob db job e env.now
            | Except.ok conv_summaries =>
              let st := runLoop env adapter api_key provider.id job.id
                db conv_summaries
              setApiKey
                (setJob st.db (finalizeJob job st env.now))
                { api_key_record with last_used_at := some env.now }

/-- Outcome of the create_import_job endpoint: the created running job
with the new database, or an HTTPException (status code, detail). -/
inductive CreateResult where
  | created (job : ImportJobRow) (db : DB)
  | httpError (code : Nat) (detail : String)
deriving DecidableEq

/-- create_import_job in api/import_jobs.py: validates the API key
(existence and is_active) and the provider, then inserts a running
job.  This is the only place the active flag is checked. -/
def create_import_job (db : DB) (provider_id api_key_id : Nat)
    (from_date to_date : Option String) (now : Nat) : CreateResult :=
  match getApiKey db api_key_id with
  | none => CreateResult.httpError 404 "API key not found"
  | some k =>
    if !k.is_active then
      CreateResult.httpError 400 "API key is not active"
    else
      match getProvider db provider_id with
      | none => CreateResult.httpError 404 "Provider not found"
      | some _ =>
        let rr : List (String × String) :=
          (match from_date with
            | some f => [("from_date", f)]
            | none => []) ++
          (match to_date with
            | some t => [("to_date", t)]
            | none => [])
        let job : ImportJobRow :=
          { id := db.next_id
            provider_id := provider_id
            api_key_id := api_key_id
            started_at := now
            finished_at := none
            status := "running"
            requested_range := if rr.isEmpty then none else some rr
            summary := none
            error_details := none
            conversations_imported := 0
            messages_imported := 0
            artifacts_imported := 0 }
        CreateResult.created job
          { db with jobs := db.jobs ++ [job], next_id := db.next_id + 1 }

/-! Concrete instances used by counterexamples, code-bug evaluations
and witnesses. -/

/-- A registered provider row. -/
def provider0 : ProviderRow := { id := 3, name := "openai" }

/-- An active credential row. -/
def key0 : APIKeyRow :=
  { id := 2
    provider_id := 3
    key_encrypted := "enc"
    is_active := true
    last_used_at := none }

/-- A freshly created running job row. -/
def job0 : ImportJobRow :=
  { id := 1
    provider_id := 3
    api_key_id := 2
    started_at := 0
    finished_at := none
    status := "running"
    requested_range := none
    summary := none
    error_details := none
    conversations_imported := 0
    messages_imported := 0
    artifacts_imported := 0 }

/-- Initial database: one job, one key, one provider, no content. -/
def db0 : DB :=
  { jobs := [job0]
    api_keys := [key0]
    providers := [provider0]
    conversations := []
    messages := []
    artifacts := []
    next_id := 10 }

/-- One adapter message with sequence index 0. -/
def msgA : ProviderMessage :=
  { provider_message_id := some "m1"
    role := "user"
    content := "hi"
    created_at := none
    sequence_index := 0
    raw_metadata := none }

/-- One adapter artifact whose message_sequence_index points at
sequence index 0. -/
def artA : ProviderArtifact :=
  { provider_artifact_id := some "art1"
    artifact_type := "file"
    filename := some "f.txt"
    mime_type := none
    download_status := "pending"
    download_error := none
    message_sequence_index := some 0
    raw_metadata := none }

/-- Fetched detail of conversation a: one message, one artifact. -/
def detailA : ProviderConversationDetail :=
  { provider_conversation_id := "a"
    title := some "A"
    started_at := none
    ended_at := none
    messages := [msgA]
    artifacts := [artA]
    raw_metadata := none }

/-- Fetched detail of conversation b: empty. -/
def detailB : ProviderConversationDetail :=
  { provider_conversation_id := "b"
    title := some "B"
    started_at := none
    ended_at := none
    messages := []
    artifacts := []
    raw_metadata := none }

/-- Summary of conversation a. -/
def sumA : ProviderConversationSummary :=
  { provider_conversation_id := "a"
    title := some "A"
    started_at := none
    ended_at := none
    message_count := none
    raw_metadata := none }

/-- Summary of conversation b. -/
def sumB : ProviderConversationSummary :=
  { provider_conversation_id := "b"
    title := some "B"
    started_at := none
    ended_at := none
    message_count := none
    raw_metadata := none }

/-- Adapter listing conversations a and b and fetching their details. -/
def adapterAB : Adapter :=
  { list_conversations := fun _ _ => Except.ok [sumA, sumB]
    fetch_conversation := fun _ cid =>
      if cid == "a" then Except.ok detailA
      else if cid == "b" then Except.ok detailB
      else Except.error "not found" }

/-- Registry lookup knowing only the name openai. -/
def registry0 : String → Except String Adapter := fun n =>
  if n == "openai" then Except.ok adapterAB
  else Except.error ("Unknown provider: " ++ n)

/-- Environment where every external call succeeds. -/
def env_ok : Env :=
  { decrypt_api_key := fun _ => Except.ok "sk"
    get_adapter := registry0
    persist_outcome := fun _ => none
    now := 7 }

/-- Environment whose credential vault decrypt raises. -/
def env_decErr : Env :=
  { env_ok with decrypt_api_key := fun _ => Except.error "decryption failed" }

/-- Database outcome that raises at commit time for conversation b
only. -/
def persistFailOnB : ProviderConversationDetail → Option PersistFail :=
  fun d =>
    if d.provider_conversation_id == "b" then
      some (PersistFail.atCommit "commit boom")
    else none

/-- Environment where committing conversation b raises after the
rows were staged. -/
def env_commitB : Env := { env_ok with persist_outcome := persistFailOnB }

/-- The credential of db0, deactivated. -/
def key_inactive : APIKeyRow := { key0 with is_active := false }

/-- db0 with its only credential inactive. -/
def db_inactive : DB := { db0 with api_keys := [key_inactive] }

/-- The run reaches the normal finalization block (step 8): decryption,
provider lookup, adapter lookup and the list call all succeed.  This is
exactly the condition under which the code executes the epilogue that
also touches last_used_at. -/
def reachesFinalize (env : Env) (db : DB) (job : ImportJobRow)
    (k : APIKeyRow) : Prop :=
  ∃ api_key provider adapter summaries,
    env.decrypt_api_key k.key_encrypted = Except.ok api_key ∧
    getProvider db job.provider_id = some provider ∧
    env.get_adapter provider.name = Except.ok adapter ∧
    adapter.list_conversations api_key (job.requested_range.getD []) =
      Except.ok summaries

/-- Loop accumulator at the start of the per-summary loop over db0. -/
def st0 : LoopState :=
  { db := db0
    conversations_count := 0
    messages_count := 0
    artifacts_count := 0
    errors := [] }

/-- db0 without any credential row. -/
def db_nokey : DB := { db0 with api_keys := [] }

/-- A previously imported conversation row for provider-native id a. -/
def convA : ConversationRow :=
  { id := 20
    provider_id := 3
    provider_conversation_id := some "a"
    title := some "old A"
    started_at := none
    ended_at := none
    origin := "api"
    import_job_id := none
    raw_metadata := none }

/-- A previously imported conversation row for provider-native id b. -/
def convB : ConversationRow :=
  { id := 21
    provider_id := 3
    provider_conversation_id := some "b"
    title := some "old B"
    started_at := none
    ended_at := none
    origin := "api"
    import_job_id := none
    raw_metadata := none }

/-- db0 with both conversations already imported. -/
def db_dup : DB := { db0 with conversations := [convA, convB] }

/-- The artifact row the happy-path run over db0 persists. -/
def artRow12 : ArtifactRow :=
  { id := 12
    conversation_id := 10
    message_id := none
    artifact_type := "file"
    provider_artifact_id := some "art1"
    filename := some "f.txt"
    mime_type := none
    download_status := "pending"
    download_error := none
    raw_metadata := none }

/-! Helper lemmas. -/

/-- Writing back a row whose id is i makes it the row find? returns,
provided some row with id i was present. -/
theorem find_updateById {α : Type} (idOf : α → Nat) (xs : List α) (y : α)
    (i : Nat) (hy : idOf y = i) (hx : ∃ x ∈ xs, idOf x = i) :
    (updateById idOf xs y).find? (fun x => idOf x == i) = some y := by
  induction xs with
  | nil => simp at hx
  | cons a l ih =>
    simp only [updateById, List.map_cons]
    by_cases ha : idOf a = i
    · have hb : (idOf a == idOf y) = true := beq_iff_eq.mpr (by rw [ha, hy])
      rw [if_pos hb]
      exact List.find?_cons_of_pos _ (beq_iff_eq.mpr hy)
    · have hb : ¬((idOf a == idOf y) = true) := by
        intro h
        exact ha ((beq_iff_eq.mp h).trans hy)
      rw [if_neg hb]
      have hpa : (idOf a == i) = false := beq_eq_false_iff_ne.mpr ha
      simp only [List.find?_cons, hpa]
      rcases hx with ⟨x, hxm, hxi⟩
      rcases List.mem_cons.mp hxm with h | h
      · exact absurd (h ▸ hxi) ha
      · exact ih ⟨x, h, hxi⟩

/-- One loop iteration never touches the jobs or api_keys tables. -/
theorem processItem_frame (env : Env) (adapter : Adapter) (api_key : String)
    (pid jid : Nat) (st : LoopState) (s : ProviderConversationSummary) :
    (processItem env adapter api_key pid jid st s).db.jobs = st.db.jobs ∧
    (processItem env adapter api_key pid jid st s).db.api_keys =
      st.db.api_keys := by
  unfold processItem
  split
  · exact ⟨rfl, rfl⟩
  · split
    · exact ⟨rfl, rfl⟩
    · split
      · exact ⟨rfl, rfl⟩
      · exact ⟨rfl, rfl⟩
      · exact ⟨rfl, rfl⟩

/-- One loop iteration keeps every already-committed conversation row. -/
theorem processItem_keeps_conversations (env : Env) (adapter : Adapter)
    (api_key : String) (pid jid : Nat) (st : LoopState)
    (s : ProviderConversationSummary) :
    ∀ c ∈ st.db.conversations,
      c ∈ (processItem env adapter api_key pid jid st s).db.conversations := by
  intro c hc
  unfold processItem
  split
  · exact hc
  · split
    · exact hc
    · split
      · exact hc
      · exact hc
      · simp only [commitConversation]
        exact List.mem_append_left _ hc

/-- One loop iteration only appends artifact rows with a null
message_id. -/
theorem processItem_artifacts_unlinked (env : Env) (adapter : Adapter)
    (api_key : String) (pid jid : Nat) (st : LoopState)
    (s : ProviderConversationSummary) :
    ∀ a ∈ (processItem env adapter api_key pid jid st s).db.artifacts,
      a ∈ st.db.artifacts ∨ a.message_id = none := by
  intro a ha
  revert ha
  unfold processItem
  split
  · exact fun h => Or.inl h
  · split
    · exact fun h => Or.inl h
    · split
      · exact fun h => Or.inl h
      · exact fun h => Or.inl h
      · intro h
        simp only [commitConversation] at h
        rcases List.mem_append.mp h with h | h
        · exact Or.inl h
        · right
          simp only [insertedArtifacts, List.mem_map] at h
          rcases h with ⟨p, _, hp⟩
          rw [← hp]

/-- The whole loop never touches the jobs or api_keys tables. -/
theorem foldl_processItem_frame (env : Env) (adapter : Adapter)
    (api_key : String) (pid jid : Nat) :
    ∀ (l : List ProviderConversationSummary) (st : LoopState),
      ((l.foldl (processItem env adapter api_key pid jid) st).db.jobs =
        st.db.jobs) ∧
      ((l.foldl (processItem env adapter api_key pid jid) st).db.api_keys =
        st.db.api_keys) := by
  intro l
  induction l with
  | nil => exact fun st => ⟨rfl, rfl⟩
  | cons s l ih =>
    intro st
    have h1 := processItem_frame env adapter api_key pid jid st s
    have h2 := ih (processItem env adapter api_key pid jid st s)
    exact ⟨h2.1.trans h1.1, h2.2.trans h1.2⟩

/-- The whole loop only appends artifact rows with a null message_id. -/
theorem foldl_processItem_artifacts (env : Env) (adapter : Adapter)
    (api_key : String) (pid jid : Nat) :
    ∀ (l : List ProviderConversationSummary) (st : LoopState),
      ∀ a ∈ (l.foldl (processItem env adapter api_key pid jid) st).db.artifacts,
        a ∈ st.db.artifacts ∨ a.message_id = none := by
  intro l
  induction l with
  | nil => exact fun st a ha => Or.inl ha
  | cons s l ih =>
    intro st a ha
    rcases ih (processItem env adapter api_key pid jid st s) a ha with h | h
    · exact processItem_artifacts_unlinked env adapter api_key pid jid st s a h
    · exact Or.inr h

/-- If every summary of the list fetches to an already-present
conversation, the loop is the identity on its accumulator. -/
theorem foldl_processItem_skip_all (env : Env) (adapter : Adapter)
    (api_key : String) (pid jid : Nat) (db : DB) :
    ∀ (l : List ProviderConversationSummary),
      (∀ s ∈ l, ∃ d,
        adapter.fetch_conversation api_key s.provider_conversation_id =
          Except.ok d ∧
        hasConversation db pid d.provider_conversation_id = true) →
      l.foldl (processItem env adapter api_key pid jid)
        { db := db
          conversations_count := 0
          messages_count := 0
          artifacts_count := 0
          errors := [] } =
      { db := db
        conversations_count := 0
        messages_count := 0
        artifacts_count := 0
        errors := [] } := by
  intro l
  induction l with
  | nil => intro _; rfl
  | cons s l ih =>
    intro h
    rcases h s (List.mem_cons_self s l) with ⟨d, hfd, hdup⟩
    have hstep : processItem env adapter api_key pid jid
        { db := db
          conversations_count := 0
          messages_count := 0
          artifacts_count := 0
          errors := [] } s =
        { db := db
          conversations_count := 0
          messages_count := 0
          artifacts_count := 0
          errors := [] } := by
      simp [processItem, hfd, hdup]
    rw [List.foldl_cons, hstep]
    exact ih fun x hx => h x (List.mem_cons_of_mem s hx)

/-- Extracting the row id from a successful getJob lookup. -/
theorem getJob_id_eq {db : DB} {job_id : Nat} {job : ImportJobRow}
    (hj : getJob db job_id = some job) : job.id = job_id := by
  have := List.find?_some hj
  simpa using this

/-- A successful getJob lookup yields a member of the jobs table. -/
theorem getJob_mem {db : DB} {job_id : Nat} {job : ImportJobRow}
    (hj : getJob db job_id = some job) : job ∈ db.jobs :=
  List.mem_of_find?_eq_some hj

/-- Extracting the row id from a successful getApiKey lookup. -/
theorem getApiKey_id_eq {db : DB} {key_id : Nat} {k : APIKeyRow}
    (hk : getApiKey db key_id = some k) : k.id = key_id := by
  have := List.find?_some hk
  simpa using this

/-- A successful getApiKey lookup yields a member of the api_keys
table. -/
theorem getApiKey_mem {db : DB} {key_id : Nat} {k : APIKeyRow}
    (hk : getApiKey db key_id = some k) : k ∈ db.api_keys :=
  List.mem_of_find?_eq_some hk

/-! Theorems settling the claims. -/

/-- C2: the claim says every started run reaches a terminal status with
finished_at set.  Evaluating the code at a run whose decryption raises:
the exception escapes the outer try (which has only a finally clause),
and the job is left in status running with finished_at unset — the run
never reaches a terminal state. -/
theorem C2_decrypt_leaves_running :
    ((run_import_job env_decErr 1 db0).jobs.find? (fun j => j.id == 1)).map
      (fun j => (j.status, j.finished_at)) = some ("running", none) := by
  decide

/-- C3: the claim says a decryption failure ends the run failed with the
reason recorded.  Evaluating the code there: the whole database is
returned unchanged — status stays running and no error detail is
written. -/
theorem C3_decrypt_no_failure_recorded :
    run_import_job env_decErr 1 db0 = db0 ∧
    (getJob db0 1).map (fun j => (j.status, j.error_details)) =
      some ("running", none) := by
  constructor
  · rfl
  · decide

/-- C4: the claim says conversations_imported = N - K when K of N
summaries raise.  Evaluating the code at N = 2 summaries where
conversation b raises at commit time: only one conversation row is
durable, yet conversations_imported is 2, because the counter is
incremented before db.commit() and survives the rollback. -/
theorem C4_commit_failure_counts :
    (getJob (run_import_job env_commitB 1 db0) 1).map
      (fun j => (j.status, j.conversations_imported)) =
        some ("partial", 2) ∧
    (run_import_job env_commitB 1 db0).conversations.length = 1 := by
  constructor
  · decide
  · decide

/-- C5 counterexample: the adapter supplies an artifact whose
message_sequence_index (some 0) matches the inserted message of its
conversation (row 10, sequence index 0), yet the stored artifact has
message_id none — the import never links artifacts to messages. -/
theorem C5_counterexample_artifact_not_linked :
    detailA.artifacts.map (fun a => a.message_sequence_index) = [some 0] ∧
    (run_import_job env_ok 1 db0).messages.map
      (fun m => (m.conversation_id, m.sequence_index)) = [(10, 0)] ∧
    (run_import_job env_ok 1 db0).artifacts.map
      (fun a => (a.conversation_id, a.message_id)) = [(10, none)] := by
  refine ⟨by decide, by decide, by decide⟩

/-- The loop never touches the jobs or api_keys tables (runLoop form). -/
theorem runLoop_frame (env : Env) (adapter : Adapter) (api_key : String)
    (pid jid : Nat) (db : DB)
    (summaries : List ProviderConversationSummary) :
    (runLoop env adapter api_key pid jid db summaries).db.jobs = db.jobs ∧
    (runLoop env adapter api_key pid jid db summaries).db.api_keys =
      db.api_keys := by
  unfold runLoop
  exact foldl_processItem_frame env adapter api_key pid jid summaries _

/-- C10: when no ImportJob row exists for the given job id, the
background task returns without modifying any persisted state. -/
theorem C10_missing_job_no_change (env : Env) (job_id : Nat) (db : DB)
    (h : getJob db job_id = none) :
    run_import_job env job_id db = db := by
  unfold run_import_job
  rw [h]

/-- Witness for C10 at a job id absent from db0. -/
theorem C10_missing_job_no_change_witness :
    run_import_job env_ok 99 db0 = db0 :=
  C10_missing_job_no_change env_ok 99 db0 (by decide)

/-- C8: persisting one conversation is atomic and duplicates are
silent: a duplicate leaves the loop state untouched with no error
entry; a fetch failure or a persistence failure (flush or commit)
leaves the database exactly as it was, adding one error entry; and
every previously committed conversation row survives the step. -/
theorem C8_persist_atomic (env : Env) (adapter : Adapter) (api_key : String)
    (pid jid : Nat) (st : LoopState) (s : ProviderConversationSummary) :
    (∀ d, adapter.fetch_conversation api_key s.provider_conversation_id =
        Except.ok d →
      hasConversation st.db pid d.provider_conversation_id = true →
      processItem env adapter api_key pid jid st s = st) ∧
    (∀ e, adapter.fetch_conversation api_key s.provider_conversation_id =
        Except.error e →
      (processItem env adapter api_key pid jid st s).db = st.db ∧
      (processItem env adapter api_key pid jid st s).errors =
        st.errors ++ [itemErrorMsg s.provider_conversation_id e]) ∧
    (∀ d f, adapter.fetch_conversation api_key s.provider_conversation_id =
        Except.ok d →
      hasConversation st.db pid d.provider_conversation_id = false →
      env.persist_outcome d = some f →
      (processItem env adapter api_key pid jid st s).db = st.db ∧
      (processItem env adapter api_key pid jid st s).errors =
        st.errors ++
          [itemErrorMsg s.provider_conversation_id (PersistFail.msg f)]) ∧
    (∀ c ∈ st.db.conversations,
      c ∈ (processItem env adapter api_key pid jid st s).db.conversations) := by
  refine ⟨?_, ?_, ?_,
    processItem_keeps_conversations env adapter api_key pid jid st s⟩
  · intro d hfd hdup
    simp [processItem, hfd, hdup]
  · intro e hfe
    simp [processItem, hfe]
  · intro d f hfd hdup hp
    cases f with
    | atFlush m => simp [processItem, hfd, hdup, hp, PersistFail.msg]
    | atCommit m => simp [processItem, hfd, hdup, hp, PersistFail.msg]

/-- Witness for C8: committing conversation b fails at commit time;
the database is untouched and exactly one error entry is appended. -/
theorem C8_persist_atomic_witness :
    (processItem env_commitB adapterAB "sk" 3 1 st0 sumB).db = st0.db ∧
    (processItem env_commitB adapterAB "sk" 3 1 st0 sumB).errors =
      st0.errors ++ [itemErrorMsg "b" "commit boom"] :=
  (C8_persist_atomic env_commitB adapterAB "sk" 3 1 st0 sumB).2.2.1 detailB
    (PersistFail.atCommit "commit boom") (by decide) (by decide) (by decide)

/-- C1: whenever the list call succeeds, the run always finalizes with
finished_at set, its status is success or partial (never failed), and
it is success exactly when the per-item loop collected no errors. -/
theorem C1_item_failures_isolated (env : Env) (db : DB) (job_id : Nat)
    (job : ImportJobRow) (k : APIKeyRow) (api_key : String)
    (provider : ProviderRow) (adapter : Adapter)
    (summaries : List ProviderConversationSummary)
    (hj : getJob db job_id = some job)
    (hk : getApiKey db job.api_key_id = some k)
    (hd : env.decrypt_api_key k.key_encrypted = Except.ok api_key)
    (hp : getProvider db job.provider_id = some provider)
    (ha : env.get_adapter provider.name = Except.ok adapter)
    (hl : adapter.list_conversations api_key (job.requested_range.getD []) =
      Except.ok summaries) :
    ∃ jf, getJob (run_import_job env job_id db) job_id = some jf ∧
      (jf.status = "success" ∨ jf.status = "partial") ∧
      (jf.status = "success" ↔
        (runLoop env adapter api_key provider.id job.id db summaries).errors
          = []) ∧
      jf.finished_at = some env.now := by
  set ST := runLoop env adapter api_key provider.id job.id db summaries
    with hST
  have hrun : run_import_job env job_id db =
      setApiKey (setJob ST.db (finalizeJob job ST env.now))
        { k with last_used_at := some env.now } := by
    simp only [run_import_job, hj, hk, hd, hp, ha, hl, hST]
  refine ⟨finalizeJob job ST env.now, ?_, ?_, ?_, rfl⟩
  · rw [hrun]
    show (updateById (fun x => x.id) ST.db.jobs
        (finalizeJob job ST env.now)).find? (fun j => j.id == job_id) = _
    rw [hST,
      (runLoop_frame env adapter api_key provider.id job.id db summaries).1]
    exact find_updateById (fun x => x.id) db.jobs
      (finalizeJob job
        (runLoop env adapter api_key provider.id job.id db summaries) env.now)
      job_id (getJob_id_eq hj) ⟨job, getJob_mem hj, getJob_id_eq hj⟩
  · by_cases he : ST.errors.isEmpty
    · left
      show (if ST.errors.isEmpty then "success" else "partial") = "success"
      rw [if_pos he]
    · right
      show (if ST.errors.isEmpty then "success" else "partial") = "partial"
      rw [if_neg he]
  · by_cases he : ST.errors.isEmpty
    · have h1 : (finalizeJob job ST env.now).status = "success" := by
        show (if ST.errors.isEmpty then "success" else "partial") = "success"
        rw [if_pos he]
      rw [h1]
      exact ⟨fun _ => List.isEmpty_iff.mp he, fun _ => rfl⟩
    · have h1 : (finalizeJob job ST env.now).status = "partial" := by
        show (if ST.errors.isEmpty then "success" else "partial") = "partial"
        rw [if_neg he]
      rw [h1]
      constructor
      · intro h2
        exact absurd h2 (by decide)
      · intro h2
        exact absurd (List.isEmpty_iff.mpr h2) he

/-- Witness for C1 on the all-successful concrete run. -/
theorem C1_item_failures_isolated_witness :
    ∃ jf, getJob (run_import_job env_ok 1 db0) 1 = some jf ∧
      (jf.status = "success" ∨ jf.status = "partial") ∧
      (jf.status = "success" ↔
        (runLoop env_ok adapterAB "sk" 3 1 db0 [sumA, sumB]).errors = []) ∧
      jf.finished_at = some 7 :=
  C1_item_failures_isolated env_ok db0 1 job0 key0 "sk" provider0 adapterAB
    [sumA, sumB] (by decide) (by decide) (by decide) (by decide) rfl rfl

/-- C6: last_used_at is stamped with the run's completion instant
exactly when the run reaches the normal finalization block, i.e. when
none of steps 1 to 4 nor the list call failed; on every other path the
credential row is left untouched. -/
theorem C6_last_used_iff (env : Env) (db : DB) (job_id : Nat)
    (job : ImportJobRow) (k : APIKeyRow)
    (hj : getJob db job_id = some job)
    (hk : getApiKey db job.api_key_id = some k) :
    (reachesFinalize env db job k →
      getApiKey (run_import_job env job_id db) job.api_key_id =
        some { k with last_used_at := some env.now }) ∧
    (¬ reachesFinalize env db job k →
      getApiKey (run_import_job env job_id db) job.api_key_id = some k) := by
  constructor
  · rintro ⟨api_key, provider, adapter, summaries, hd, hp, ha, hl⟩
    simp only [run_import_job, hj, hk, hd, hp, ha, hl]
    show (updateById (fun x => x.id)
        (runLoop env adapter api_key provider.id job.id db
          summaries).db.api_keys
        { k with last_used_at := some env.now }).find?
      (fun x => x.id == job.api_key_id) = _
    rw [(runLoop_frame env adapter api_key provider.id job.id db summaries).2]
    exact find_updateById (fun x => x.id) db.api_keys
      { k with last_used_at := some env.now } job.api_key_id
      (getApiKey_id_eq hk) ⟨k, getApiKey_mem hk, getApiKey_id_eq hk⟩
  · intro hnr
    cases hd : env.decrypt_api_key k.key_encrypted with
    | error e =>
      simp only [run_import_job, hj, hk, hd]
    | ok api_key =>
      cases hp : getProvider db job.provider_id with
      | none =>
        simp only [run_import_job, hj, hk, hd, hp]
        exact hk
      | some provider =>
        cases ha : env.get_adapter provider.name with
        | error e =>
          simp only [run_import_job, hj, hk, hd, hp, ha]
          exact hk
        | ok adapter =>
          cases hl : adapter.list_conversations api_key
              (job.requested_range.getD []) with
          | error e =>
            simp only [run_import_job, hj, hk, hd, hp, ha, hl]
            exact hk
          | ok summaries =>
            exact absurd
              ⟨api_key, provider, adapter, summaries, hd, hp, ha, hl⟩ hnr

/-- Witness for C6 on the concrete run reaching finalization. -/
theorem C6_last_used_iff_witness :
    getApiKey (run_import_job env_ok 1 db0) 2 =
      some { key0 with last_used_at := some 7 } :=
  (C6_last_used_iff env_ok db0 1 job0 key0 (by decide) (by decide)).1
    ⟨"sk", provider0, adapterAB, [sumA, sumB], by decide, by decide, rfl, rfl⟩

/-- C9: when every listed summary fetches to a conversation whose
(provider, provider-native id) pair is already stored, the run creates
no second Conversation row and modifies no existing row, and leaves
messages and artifacts untouched. -/
theorem C9_rerun_idempotent (env : Env) (db : DB) (job_id : Nat)
    (job : ImportJobRow) (k : APIKeyRow) (api_key : String)
    (provider : ProviderRow) (adapter : Adapter)
    (summaries : List ProviderConversationSummary)
    (hj : getJob db job_id = some job)
    (hk : getApiKey db job.api_key_id = some k)
    (hd : env.decrypt_api_key k.key_encrypted = Except.ok api_key)
    (hp : getProvider db job.provider_id = some provider)
    (ha : env.get_adapter provider.name = Except.ok adapter)
    (hl : adapter.list_conversations api_key (job.requested_range.getD []) =
      Except.ok summaries)
    (hall : ∀ s ∈ summaries, ∃ d,
      adapter.fetch_conversation api_key s.provider_conversation_id =
        Except.ok d ∧
      hasConversation db provider.id d.provider_conversation_id = true) :
    (run_import_job env job_id db).conversations = db.conversations ∧
    (run_import_job env job_id db).messages = db.messages ∧
    (run_import_job env job_id db).artifacts = db.artifacts := by
  have hloop : runLoop env adapter api_key provider.id job.id db summaries =
      { db := db
        conversations_count := 0
        messages_count := 0
        artifacts_count := 0
        errors := [] } := by
    unfold runLoop
    exact foldl_processItem_skip_all env adapter api_key provider.id job.id
      db summaries hall
  simp only [run_import_job, hj, hk, hd, hp, ha, hl, hloop]
  exact ⟨rfl, rfl, rfl⟩

/-- Witness for C9 on a store already holding conversations a and b. -/
theorem C9_rerun_idempotent_witness :
    (run_import_job env_ok 1 db_dup).conversations = db_dup.conversations ∧
    (run_import_job env_ok 1 db_dup).messages = db_dup.messages ∧
    (run_import_job env_ok 1 db_dup).artifacts = db_dup.artifacts :=
  C9_rerun_idempotent env_ok db_dup 1 job0 key0 "sk" provider0 adapterAB
    [sumA, sumB] (by decide) (by decide) (by decide) (by decide) rfl rfl
    (by
      intro s hs
      rcases List.mem_cons.mp hs with h | h
      · subst h
        exact ⟨detailA, by decide, by decide⟩
      · rcases List.mem_cons.mp h with h2 | h2
        · subst h2
          exact ⟨detailB, by decide, by decide⟩
        · exact absurd h2 (List.not_mem_nil s))

/-- Across a whole run, every artifact row that was not already stored
has a null message_id. -/
theorem run_artifacts_new_unlinked (env : Env) (job_id : Nat) (db : DB) :
    ∀ a ∈ (run_import_job env job_id db).artifacts,
      a ∈ db.artifacts ∨ a.message_id = none := by
  intro a
  cases hj : getJob db job_id with
  | none =>
    simp only [run_import_job, hj]
    exact fun h => Or.inl h
  | some job =>
    cases hk : getApiKey db job.api_key_id with
    | none =>
      simp only [run_import_job, hj, hk]
      exact fun h => Or.inl h
    | some api_key_record =>
      cases hd : env.decrypt_api_key api_key_record.key_encrypted with
      | error e =>
        simp only [run_import_job, hj, hk, hd]
        exact fun h => Or.inl h
      | ok api_key =>
        cases hp : getProvider db job.provider_id with
        | none =>
          simp only [run_import_job, hj, hk, hd, hp]
          exact fun h => Or.inl h
        | some provider =>
          cases ha : env.get_adapter provider.name with
          | error e =>
            simp only [run_import_job, hj, hk, hd, hp, ha]
            exact fun h => Or.inl h
          | ok adapter =>
            cases hl : adapter.list_conversations api_key
                (job.requested_range.getD []) with
            | error e =>
              simp only [run_import_job, hj, hk, hd, hp, ha, hl]
              exact fun h => Or.inl h
            | ok summaries =>
              simp only [run_import_job, hj, hk, hd, hp, ha, hl]
              intro h
              exact foldl_processItem_artifacts env adapter api_key
                provider.id job.id summaries
                { db := db
                  conversations_count := 0
                  messages_count := 0
                  artifacts_count := 0
                  errors := [] } a h

/-- C5 as amended: the import persists every artifact of a newly
inserted conversation — one row per fetched artifact, none dropped —
but always unlinked: any artifact row the run adds has a null
message_id, whatever message_sequence_index the adapter supplied. -/
theorem C5_amended_unlinked_not_dropped :
    (∀ (env : Env) (job_id : Nat) (db : DB),
      ∀ a ∈ (run_import_job env job_id db).artifacts,
        a ∈ db.artifacts ∨ a.message_id = none) ∧
    (∀ (db : DB) (pid jid : Nat) (d : ProviderConversationDetail),
      (commitConversation db pid jid d).artifacts.length =
        db.artifacts.length + d.artifacts.length) := by
  constructor
  · exact run_artifacts_new_unlinked
  · intro db pid jid d
    simp [commitConversation, insertedArtifacts]

/-- Witness for C5 as amended: the artifact row the concrete run adds
is new and unlinked. -/
theorem C5_amended_unlinked_not_dropped_witness :
    artRow12 ∈ (run_import_job env_ok 1 db0).artifacts ∧
    (artRow12 ∈ db0.artifacts ∨ artRow12.message_id = none) :=
  ⟨by decide,
   C5_amended_unlinked_not_dropped.1 env_ok 1 db0 artRow12 (by decide)⟩

/-- C7 as amended: a missing credential makes the run body fail with a
descriptive error before any item is processed, while the active flag
is enforced only at job creation: create_import_job rejects an
inactive credential with HTTP 400, and the run body never re-checks
it. -/
theorem C7_amended_missing_vs_inactive (env : Env) (db dbc : DB)
    (job_id : Nat) (job : ImportJobRow) (pid kid : Nat) (k : APIKeyRow)
    (fd td : Option String) (now : Nat) :
    (getJob db job_id = some job → getApiKey db job.api_key_id = none →
      ∃ jf, getJob (run_import_job env job_id db) job_id = some jf ∧
        jf.status = "failed" ∧
        jf.error_details = some "API key not found" ∧
        jf.finished_at = some env.now ∧
        (run_import_job env job_id db).conversations = db.conversations) ∧
    (getApiKey dbc kid = some k → k.is_active = false →
      create_import_job dbc pid kid fd td now =
        CreateResult.httpError 400 "API key is not active") := by
  constructor
  · intro hj hk
    simp only [run_import_job, hj, hk]
    refine ⟨{ job with
        status := "failed"
        error_details := some "API key not found"
        finished_at := some env.now }, ?_, rfl, rfl, rfl, rfl⟩
    show (updateById (fun x => x.id) db.jobs
        { job with
          status := "failed"
          error_details := some "API key not found"
          finished_at := some env.now }).find?
      (fun j => j.id == job_id) = _
    exact find_updateById (fun x => x.id) db.jobs
      { job with
        status := "failed"
        error_details := some "API key not found"
        finished_at := some env.now }
      job_id (getJob_id_eq hj) ⟨job, getJob_mem hj, getJob_id_eq hj⟩
  · intro hk hact
    simp [create_import_job, hk, hact]

/-- Witness for C7 as amended, on db0 without its credential and on
db0 with its credential deactivated. -/
theorem C7_amended_missing_vs_inactive_witness :
    (∃ jf, getJob (run_import_job env_ok 1 db_nokey) 1 = some jf ∧
      jf.status = "failed" ∧
      jf.error_details = some "API key not found" ∧
      jf.finished_at = some 7 ∧
      (run_import_job env_ok 1 db_nokey).conversations =
        db_nokey.conversations) ∧
    create_import_job db_inactive 3 2 none none 9 =
      CreateResult.httpError 400 "API key is not active" :=
  ⟨(C7_amended_missing_vs_inactive env_ok db_nokey db_inactive 1 job0 3 2
      key_inactive none none 9).1 (by decide) (by decide),
   (C7_amended_missing_vs_inactive env_ok db_nokey db_inactive 1 job0 3 2
      key_inactive none none 9).2 (by decide) rfl⟩

/-- C7 counterexample: a run whose credential exists but is inactive
when the run body executes proceeds normally — the run body never
re-checks is_active, so the run ends success with conversations
imported, not failed. -/
theorem C7_counterexample_inactive_key_runs :
    key_inactive.is_active = false ∧
    (getJob (run_import_job env_ok 1 db_inactive) 1).map
      (fun j => j.status) = some "success" ∧
    (run_import_job env_ok 1 db_inactive).conversations.length = 2 := by
  refine ⟨rfl, by decide, by decide⟩

end ImportPipeline
